import Mathlib

/-!
# Verification of the platform HTTP client (github)

A shallow embedding of the platform HTTP client layer of the repository:
credential/host-rule resolution, Link-header REST pagination, the adaptive
GraphQL page-size cache, and the error classifier.

The implementation module itself (`lib/util/http/github.ts`) is not part of
the provided sources; only its test suite (`src/lib/util/http/github.spec.ts`)
is.  Following the rules for missing code, every definition below is modelled
from the specification (`spec.md`), with the test suite of the repository itself used
to pin down concrete expected input/output pairs where the spec leaves
freedom (e.g. the milestone-not-found 422 body, which the tests require to be
passed through).
-/

/-- `strHasPfx pat s` is true iff the string `s` starts with `pat`. -/
def strHasPfx (pat s : String) : Bool :=
  List.isPrefixOf pat.toList s.toList

/-- Recursive worker for the substring test: does `pat` occur at some
position of the character list? -/
def containsAux (pat : List Char) : List Char → Bool
  | [] => List.isPrefixOf pat []
  | c :: cs => List.isPrefixOf pat (c :: cs) || containsAux pat cs

/-- Substring test used by the message-pattern error matching:
`strContains s pat` is true iff `pat` occurs somewhere in `s`. -/
def strContains (s pat : String) : Bool :=
  containsAux pat.toList s.toList

/-- Modelled from the spec: `ClassifiedError` kinds (section 3).
`passthrough` preserves the original upstream message verbatim. -/
inductive ClassifiedKind where
  | rateLimitExceeded
  | badCredentials
  | integrationUnauthorized
  | repositoryChanged
  | externalHostError
  | passthrough (message : String)
  deriving DecidableEq, Repr

/-- Modelled from the spec: one entry of the `errors` list of a 422 response body
(fields observed in the tests of the repository: `code`, `field`, `message`). -/
structure ErrEntry where
  code : Option String := none
  field : Option String := none
  message : Option String := none
  deriving DecidableEq, Repr

/-- Modelled from the spec: the information the error classifier inspects
about a failed request: network error code, HTTP status, message (body
message when present), the error list of the 422 body, presence of the
`x-ratelimit-limit` response header, and whether the body failed to parse. -/
structure ErrResponse where
  status : Nat := 0
  code : Option String := none
  message : String := ""
  errors : List ErrEntry := []
  rateLimitHeader : Bool := false
  parseError : Bool := false
  deriving DecidableEq, Repr

/-- Modelled from the spec (section 4.5, status 422): an error-list entry
whose code indicates an outdated base ref / SHA mismatch.  The platform
reports such mismatches with `code: "invalid"`; the milestone-not-found body
also carries `code: "invalid"` but on the `milestone` field, which the spec
lists among the benign validation messages, so it is excluded here. -/
def isBaseRefMismatch (e : ErrEntry) : Bool :=
  e.code == some "invalid" && e.field != some "milestone"

/-- Modelled from the spec (section 4.5, status 422): a known benign
validation condition — reviewer is the PR author, a pull request already
exists, or milestone not found. -/
def isBenign422 (message : String) (errors : List ErrEntry) : Bool :=
  strContains message "Review cannot be requested from pull request author"
    || errors.any (fun e =>
        match e.message with
        | some m => strHasPfx "A pull request already exists" m
        | none => false)
    || errors.any (fun e =>
        e.field == some "milestone" && e.code == some "invalid")

/-- Modelled from the spec (section 4.5, status 422): outdated base ref /
SHA mismatch code present in the error list yields `repositoryChanged`;
otherwise a known benign validation message passes through with the original
message; any other 422 body yields `externalHostError`. -/
def classify422 (message : String) (errors : List ErrEntry) : ClassifiedKind :=
  if errors.any isBaseRefMismatch then
    .repositoryChanged
  else if isBenign422 message errors then
    .passthrough message
  else
    .externalHostError

/-- Modelled from the spec (section 4.5, status 403): rate-limit wording
(primary, secondary, or abuse-detection) yields `rateLimitExceeded`; the
specific not-accessible-by-integration wording yields
`integrationUnauthorized`; anything else passes through verbatim. -/
def classify403 (message : String) : ClassifiedKind :=
  if strContains message "rate limit exceeded"
      || strContains message "secondary rate limit"
      || strContains message "abuse detection mechanism" then
    .rateLimitExceeded
  else if strContains message "Resource not accessible by integration" then
    .integrationUnauthorized
  else
    .passthrough message

/-- The network-level error codes treated as transport failures
(section 4.5). -/
def networkErrorCodes : List String :=
  ["ENOTFOUND", "ETIMEDOUT", "EAI_AGAIN", "ECONNRESET"]

/-- Modelled from the spec: the error classifier `handleGotError`
(section 4.5).  Returns the classified kind together with a flag telling
whether the one-time warning is emitted through the logging collaborator
(true exactly in the ambiguous 401-with-rate-limit-header case, the single
documented side effect). -/
def handleGotError (e : ErrResponse) : ClassifiedKind × Bool :=
  if (match e.code with
      | some c => networkErrorCodes.contains c
      | none => false) then
    (.externalHostError, false)
  else if e.parseError then
    (.externalHostError, false)
  else if 500 ≤ e.status then
    (.externalHostError, false)
  else if e.status == 401 then
    if strContains e.message "Bad credentials" then
      if e.rateLimitHeader then
        (.externalHostError, true)
      else
        (.badCredentials, false)
    else
      (.passthrough e.message, false)
  else if e.status == 403 then
    (classify403 e.message, false)
  else if e.status == 422 then
    (classify422 e.message e.errors, false)
  else
    (.passthrough e.message, false)

/-! ## GraphQL paginator and adaptive page-size cache -/

/-- Modelled from the spec (section 3): a `GraphqlPageCache` entry,
`pageSize` plus the `pageLastResizedAt` timestamp (modelled in seconds). -/
structure GraphqlPageCacheEntry where
  pageSize : Nat
  pageLastResizedAt : Nat
  deriving DecidableEq, Repr

/-- The page-size cache: entries keyed by GraphQL field name. -/
abbrev GraphqlPageCache := List (String × GraphqlPageCacheEntry)

/-- Look up the cache entry for a field name. -/
def cacheGet (cache : GraphqlPageCache) (fieldName : String) :
    Option GraphqlPageCacheEntry :=
  match cache.find? (fun p => p.1 == fieldName) with
  | some p => some p.2
  | none => none

/-- Store (or replace) the cache entry for a field name. -/
def cacheSet (cache : GraphqlPageCache) (fieldName : String)
    (entry : GraphqlPageCacheEntry) : GraphqlPageCache :=
  match cache with
  | [] => [(fieldName, entry)]
  | p :: rest =>
      if p.1 == fieldName then (fieldName, entry) :: rest
      else p :: cacheSet rest fieldName entry

/-- Delete the cache entry for a field name. -/
def cacheErase (cache : GraphqlPageCache) (fieldName : String) :
    GraphqlPageCache :=
  cache.filter (fun p => p.1 != fieldName)

/-- The built-in default and ceiling for GraphQL page sizes (spec: 100). -/
def maxGraphqlPageSize : Nat := 100

/-- The floor below which a shrunk page size aborts instead of retrying
(spec: 10). -/
def minGraphqlPageSize : Nat := 10

/-- The grow-policy cooldown window of 24 hours, in seconds. -/
def pageSizeCooldown : Nat := 24 * 60 * 60

/-- Modelled from the spec (section 4.4, grow policy): read the page size to
use for a field.  A missing entry means the default.  An entry whose
`pageLastResizedAt` is older than the 24-hour cooldown is doubled (and the
entry updated with the new timestamp); if the doubling reaches or exceeds
the ceiling the entry is deleted entirely and the default is used. -/
def getGraphqlPageSize (cache : GraphqlPageCache) (fieldName : String)
    (defaultPageSize : Nat) (now : Nat) : Nat × GraphqlPageCache :=
  match cacheGet cache fieldName with
  | none => (defaultPageSize, cache)
  | some entry =>
      if entry.pageLastResizedAt + pageSizeCooldown < now then
        let newPageSize := min (entry.pageSize * 2) maxGraphqlPageSize
        if newPageSize < maxGraphqlPageSize then
          (newPageSize,
            cacheSet cache fieldName
              { pageSize := newPageSize, pageLastResizedAt := now })
        else
          (defaultPageSize, cacheErase cache fieldName)
      else
        (entry.pageSize, cache)

/-- Modelled from the spec (section 4.4, shrink policy): persist a resized
page size together with the resize timestamp. -/
def setGraphqlPageSize (cache : GraphqlPageCache) (fieldName : String)
    (pageSize : Nat) (now : Nat) : GraphqlPageCache :=
  cacheSet cache fieldName { pageSize := pageSize, pageLastResizedAt := now }

/-- Page info of a GraphQL field response. -/
structure PageInfo where
  hasNextPage : Bool
  endCursor : Option String
  deriving DecidableEq, Repr

/-- Data of the requested nested field: page info plus the node list
(nodes modelled as opaque numeric items). -/
structure FieldData where
  pageInfo : Option PageInfo
  nodes : List Nat
  deriving DecidableEq, Repr

/-- One GraphQL response as the paginator sees it: either a 200 whose data
may or may not contain the requested nested field, or an HTTP error
status. -/
inductive GraphqlResponse where
  | ok (fieldData : Option FieldData)
  | err (status : Nat)
  deriving DecidableEq, Repr

/-- Modelled from the spec (section 4.4): a server-overload condition,
HTTP 500/502/503 or equivalent gateway timeout. -/
def isServerOverload (status : Nat) : Bool :=
  status == 500 || status == 502 || status == 503 || status == 504

/-- One GraphQL POST issued by the paginator: the `count` variable (current
page size) and the `cursor` variable (end cursor of the previous page). -/
structure GqlRequest where
  count : Nat
  cursor : Option String
  deriving DecidableEq, Repr

/-- Options of `queryRepoField` (spec section 4.4): pagination on by
default, optional initial page size and item limit. -/
structure GqlOptions where
  paginate : Bool := true
  count : Option Nat := none
  limit : Option Nat := none
  deriving DecidableEq, Repr

/-- A resolved `queryRepoField` call: either the accumulated items or a
raised classified error. -/
inductive GqlResult where
  | ok (items : List Nat)
  | fail (e : ClassifiedKind)
  deriving DecidableEq, Repr

/-- Outcome of a `queryRepoField` run: the result (`none` when the fuel ran
out, otherwise the classified error or the accumulated items), the trace of
issued requests, and the final page-size cache. -/
structure GqlOutcome where
  result : Option GqlResult
  requests : List GqlRequest
  cache : GraphqlPageCache
  deriving DecidableEq, Repr

/-- Classify a failed GraphQL POST by status (no body message is attached
in this model); reuses the error classifier. -/
def classifyGqlStatus (status : Nat) : ClassifiedKind :=
  (handleGotError { status := status }).1

/-- Modelled from the spec (section 4.4): the page loop of
`queryRepoField`.  The server is a stream of responses indexed by request
number (mirroring the sequential HTTP mocks of the tests in the repository).
Each iteration issues one POST with the current page size and cursor:

* server-overload failure: halve the page size (integer floor division);
  below the floor raise the classified error without retrying, otherwise
  persist the halved size with the current timestamp and retry the same
  cursor;
* other failure: raise the classified error;
* 200 with the field present: append the nodes, decrease the remaining
  limit, stop when the limit is exhausted or page info reports no further
  page (or pagination is off), else continue from the end cursor;
* 200 without the field: with pagination off resolve to the accumulated
  (empty) result; otherwise halve the page size and retry, resolving to
  the accumulated result once the size reaches zero.

`fuel` bounds the number of iterations so the function is total; `none`
reports fuel exhaustion. -/
def queryRepoFieldGo (server : Nat → GraphqlResponse) (fieldName : String)
    (paginate : Bool) (now : Nat) :
    Nat → Nat → Nat → Option String → List Nat → List GqlRequest →
      GraphqlPageCache → Nat → GqlOutcome
  | 0, _, _, _, _, reqs, cache, _ => ⟨none, reqs, cache⟩
  | fuel + 1, count, limit, cursor, acc, reqs, cache, idx =>
      let reqs := reqs ++ [⟨count, cursor⟩]
      match server idx with
      | .err status =>
          if isServerOverload status then
            if count / 2 < minGraphqlPageSize then
              ⟨some (.fail (classifyGqlStatus status)), reqs, cache⟩
            else
              queryRepoFieldGo server fieldName paginate now
                fuel (count / 2) limit cursor acc reqs
                (setGraphqlPageSize cache fieldName (count / 2) now) (idx + 1)
          else
            ⟨some (.fail (classifyGqlStatus status)), reqs, cache⟩
      | .ok none =>
          if paginate then
            if count / 2 == 0 then
              ⟨some (.ok acc), reqs, cache⟩
            else
              queryRepoFieldGo server fieldName paginate now
                fuel (count / 2) limit cursor acc reqs cache (idx + 1)
          else
            ⟨some (.ok acc), reqs, cache⟩
      | .ok (some fd) =>
          let acc := acc ++ fd.nodes
          let limit := limit - fd.nodes.length
          if paginate then
            if limit == 0 then
              ⟨some (.ok acc), reqs, cache⟩
            else
              match fd.pageInfo with
              | some pi =>
                  match pi.endCursor with
                  | some c =>
                      if pi.hasNextPage then
                        queryRepoFieldGo server fieldName paginate now
                          fuel count limit (some c) acc reqs cache (idx + 1)
                      else
                        ⟨some (.ok acc), reqs, cache⟩
                  | none => ⟨some (.ok acc), reqs, cache⟩
              | none => ⟨some (.ok acc), reqs, cache⟩
          else
            ⟨some (.ok acc), reqs, cache⟩

/-- Modelled from the spec (section 4.4): `queryRepoField`.  The initial
page size comes from the cache (applying the grow/evict policy) with the
`count` given by the caller or the built-in default as fallback; the item limit
defaults to 1000. -/
def queryRepoField (server : Nat → GraphqlResponse) (fieldName : String)
    (opts : GqlOptions) (cache : GraphqlPageCache) (now : Nat) (fuel : Nat) :
    GqlOutcome :=
  let init := getGraphqlPageSize cache fieldName
    (opts.count.getD maxGraphqlPageSize) now
  queryRepoFieldGo server fieldName opts.paginate now
    fuel init.1 (opts.limit.getD 1000) none [] [] init.2 0

/-! ## Host rules, REST pagination and link rebasing -/

/-- Modelled from the spec (section 3): a host rule binding a credential to
a logical host type, optionally scoped by `matchHost` to a host or
repository path. -/
structure HostRule where
  hostType : String
  token : Option String := none
  matchHost : Option String := none
  deriving DecidableEq, Repr

/-- Modelled from the spec (section 4.1): a rule applies when its
`matchHost` is a prefix of the target URL; a rule without `matchHost`
matches any URL of its host type. -/
def ruleApplies (r : HostRule) (url : String) : Bool :=
  match r.matchHost with
  | none => true
  | some h => strHasPfx h url

/-- The specificity of a rule: the character length of its `matchHost`
(zero for the fallback rule without one). -/
def matchLen (r : HostRule) : Nat :=
  match r.matchHost with
  | none => 0
  | some h => h.length

/-- Modelled from the spec (section 4.1): among the given rules, select an
applicable one whose `matchHost` has the greatest character length. -/
def bestRule (url : String) : List HostRule → Option HostRule
  | [] => none
  | r :: rest =>
      match bestRule url rest with
      | none => if ruleApplies r url then some r else none
      | some b =>
          if ruleApplies r url && matchLen b ≤ matchLen r then some r
          else some b

/-- Modelled from the spec (sections 3 and 4.1): credential resolution.
Rules whose `hostType` equals the datasource identifier of the caller outrank
rules of the generic platform host type; within a host type the most
specific (longest `matchHost`) applicable rule wins; no match means the
caller proceeds unauthenticated. -/
def resolveHostRule (rules : List HostRule) (platformType : String)
    (dsType : Option String) (url : String) : Option HostRule :=
  let dsBest :=
    match dsType with
    | some ds => bestRule url (rules.filter fun r => r.hostType == ds)
    | none => none
  match dsBest with
  | some r => some r
  | none => bestRule url (rules.filter fun r => r.hostType == platformType)

/-- The token delivered by the resolved rule, if any. -/
def resolveToken (rules : List HostRule) (platformType : String)
    (dsType : Option String) (url : String) : Option String :=
  match resolveHostRule rules platformType dsType url with
  | some r => r.token
  | none => none

/-- A URL split into its authority (scheme + host) and the rest (path and
query), as the link-rebasing logic treats it. -/
structure LinkUrl where
  authority : String
  pathq : String
  deriving DecidableEq, Repr

/-- Modelled from the spec (section 4.3, host rebasing): when the toggle is
off the linked URL is followed verbatim; when it is on, the scheme and host
of the URL are replaced by those of the configured base URL, with path and query
preserved. -/
def rebaseUrl (rebase : Bool) (baseAuthority : String) (u : LinkUrl) :
    LinkUrl :=
  if rebase then ⟨baseAuthority, u.pathq⟩ else u

/-- A REST response body: either a top-level array or an envelope carrying
a named array field plus the rest of the envelope (items modelled as opaque
numbers, the remaining envelope as an opaque number). -/
inductive PageBody where
  | list (items : List Nat)
  | obj (fieldName : String) (items : List Nat) (extra : Nat)
  deriving DecidableEq, Repr

/-- One REST page as served: its body and the `rel="next"` link relation
from the `Link` header, when present. -/
structure RestPageResp where
  body : PageBody
  next : Option LinkUrl
  deriving DecidableEq, Repr

/-- One request issued by the pagination engine: the URL it was sent to and
the credential attached (resolved once, for the original request). -/
structure RestRequest where
  url : LinkUrl
  auth : Option String
  deriving DecidableEq, Repr

/-- Modelled from the spec (section 4.3): the page loop of `fetchAll`.
Issues the first request at the given URL, then follows `rel="next"` links
(rebased when the toggle is on) until a page carries none, reusing the
credential of the original request on every page.  Consumes one served page per
request; returns the page bodies in order and the request trace. -/
def fetchLoop (rebase : Bool) (baseAuthority : String) (auth : Option String) :
    List RestPageResp → LinkUrl → List PageBody × List RestRequest
  | [], _ => ([], [])
  | p :: rest, url =>
      match p.next with
      | none => ([p.body], [⟨url, auth⟩])
      | some l =>
          let tail :=
            fetchLoop rebase baseAuthority auth rest
              (rebaseUrl rebase baseAuthority l)
          (p.body :: tail.1, ⟨url, auth⟩ :: tail.2)

/-- Concatenate top-level array bodies, failing on any non-array body. -/
def collectArrays : List PageBody → Option (List Nat)
  | [] => some []
  | .list xs :: rest =>
      match collectArrays rest with
      | some ys => some (xs ++ ys)
      | none => none
  | .obj _ _ _ :: _ => none

/-- Concatenate the array of the named field across envelope bodies, failing on
a body of the wrong shape. -/
def collectField (f : String) : List PageBody → Option (List Nat)
  | [] => some []
  | .obj f0 xs _ :: rest =>
      if f0 == f then
        match collectField f rest with
        | some ys => some (xs ++ ys)
        | none => none
      else none
  | .list _ :: _ => none

/-- Modelled from the spec (section 4.3, aggregation): without a
`paginationField` the top-level array bodies are concatenated across pages;
with one, the envelope of the first page is returned with that field
replaced by the concatenation of its array across all pages. -/
def aggregatePages (paginationField : Option String) :
    List PageBody → Option PageBody
  | [] => none
  | first :: rest =>
      match paginationField with
      | none =>
          match collectArrays (first :: rest) with
          | some xs => some (.list xs)
          | none => none
      | some f =>
          match first with
          | .obj f0 xs0 extra0 =>
              if f0 == f then
                match collectField f rest with
                | some ys => some (.obj f0 (xs0 ++ ys) extra0)
                | none => none
              else none
          | .list _ => none

/-- Modelled from the spec (section 4.3): `fetchAll`, with the credential
resolved once from the host rules for the original URL string and attached
to every page request.  Returns the aggregated body and the request
trace. -/
def fetchAll (rules : List HostRule) (platformType : String)
    (dsType : Option String) (urlString : String) (rebase : Bool)
    (baseAuthority : String) (paginationField : Option String)
    (pages : List RestPageResp) (url : LinkUrl) :
    Option PageBody × List RestRequest :=
  let auth := resolveToken rules platformType dsType urlString
  let fetched := fetchLoop rebase baseAuthority auth pages url
  (aggregatePages paginationField fetched.1, fetched.2)

/-- Chain page bodies into linked pages: every page except the last carries
the given `next` link, the last carries none. -/
def chainPages (l : LinkUrl) : List PageBody → List RestPageResp
  | [] => []
  | [b] => [⟨b, none⟩]
  | b :: b2 :: rest => ⟨b, some l⟩ :: chainPages l (b2 :: rest)

/-- Chain page bodies against an explicit list of `next` links: page `i`
carries link `i`; pages beyond the links carry none. -/
def chainWith : List PageBody → List LinkUrl → List RestPageResp
  | [], _ => []
  | b :: _, [] => [⟨b, none⟩]
  | b :: rest, l :: ls => ⟨b, some l⟩ :: chainWith rest ls

/-- Build a response stream from a finite list of mocked responses, as the
tests of the repository do; requests past the end see a 404. -/
def serverOfList (l : List GraphqlResponse) : Nat → GraphqlResponse :=
  fun i => l.getD i (.err 404)

/-- First page of the GraphQL test fixture of the repository: one node, end
cursor `cursor1`, a further page available. -/
def fdPage1 : FieldData := ⟨some ⟨true, some "cursor1"⟩, [1]⟩

/-- Second page of the fixture: one node, end cursor `cursor2`, a further
page available. -/
def fdPage2 : FieldData := ⟨some ⟨true, some "cursor2"⟩, [2]⟩

/-- Third page of the fixture: one node, no further page. -/
def fdPage3 : FieldData := ⟨some ⟨false, some "cursor3"⟩, [3]⟩

/-- The three-page fixture with no failures. -/
def plainServer : Nat → GraphqlResponse :=
  serverOfList [.ok (some fdPage1), .ok (some fdPage2), .ok (some fdPage3)]

/-- The `shrinks items count on 50x` fixture: page one succeeds, the second
request fails with a 500, then pages two and three succeed. -/
def shrinkServer : Nat → GraphqlResponse :=
  serverOfList
    [.ok (some fdPage1), .err 500, .ok (some fdPage2), .ok (some fdPage3)]

/-- The `continues to iterate with a lower page size on error 502` fixture:
the first request fails with a 502, then all three pages succeed. -/
def error502Server : Nat → GraphqlResponse :=
  serverOfList
    [.err 502, .ok (some fdPage1), .ok (some fdPage2), .ok (some fdPage3)]

/-- A server whose every 200 response lacks the requested nested field. -/
def missingFieldServer : Nat → GraphqlResponse := fun _ => .ok none

/-- A server answering every request with a 500. -/
def err500Server : Nat → GraphqlResponse := fun _ => .err 500

/-- The reference timestamp used by the concrete runs. -/
def nowT : Nat := 1000000

/-- A cache entry for `testItem` resized recently (within the cooldown),
page size 50. -/
def recentCache50 : GraphqlPageCache :=
  [("testItem", ⟨50, nowT - 100⟩)]

/-- A cache entry for `testItem` last resized well over 24 hours ago, page
size 42. -/
def staleCache42 : GraphqlPageCache :=
  [("testItem", ⟨42, 10000⟩)]

/-- A cache entry for `testItem` last resized well over 24 hours ago, page
size 50. -/
def staleCache50 : GraphqlPageCache :=
  [("testItem", ⟨50, 10000⟩)]

/-- A plain 422 response with a message and an error list. -/
def mk422 (message : String) (errors : List ErrEntry) : ErrResponse :=
  { status := 422, message := message, errors := errors }

/-- A plain 401 response with a message and the rate-limit-header flag. -/
def mk401 (message : String) (rateLimitHeader : Bool) : ErrResponse :=
  { status := 401, message := message, rateLimitHeader := rateLimitHeader }

/-- A plain 403 response with a message. -/
def mk403 (message : String) : ErrResponse :=
  { status := 403, message := message }

/-- The milestone-not-found 422 body observed in the tests of the repository:
message `Validation Failed`, error list entry with `field: milestone` and
`code: invalid`. -/
def milestoneNotFoundBody : ErrResponse :=
  mk422 "Validation Failed"
    [{ code := some "invalid", field := some "milestone" }]

example : handleGotError (mk422 "foobar" [{ code := some "invalid" }])
    = (.repositoryChanged, false) := by decide
example : handleGotError milestoneNotFoundBody
    = (.passthrough "Validation Failed", false) := by decide
example : handleGotError (mk422 "foobar" []) = (.externalHostError, false) := by
  decide
example :
    handleGotError
        (mk422 "Review cannot be requested from pull request author." [])
      = (.passthrough "Review cannot be requested from pull request author.",
          false) := by
  decide
example :
    handleGotError
        (mk422 "Validation error"
          [{ message := some "A pull request already exists" }])
      = (.passthrough "Validation error", false) := by
  decide
example : handleGotError (mk401 "Bad credentials. (401)" false)
    = (.badCredentials, false) := by decide
example : handleGotError (mk401 "Bad credentials. (401)" true)
    = (.externalHostError, true) := by decide
example : handleGotError (mk401 "Some unauthorized" false)
    = (.passthrough "Some unauthorized", false) := by decide
example :
    handleGotError
        (mk403
          "Error updating branch: API rate limit exceeded for installation ID 48411. (403)")
      = (.rateLimitExceeded, false) := by decide
example :
    handleGotError
        (mk403 "You have exceeded a secondary rate limit and have been temporarily blocked from content creation. Please retry your request again later.")
      = (.rateLimitExceeded, false) := by decide
example :
    handleGotError (mk403 "You have triggered an abuse detection mechanism")
      = (.rateLimitExceeded, false) := by decide
example :
    handleGotError (mk403 "Resource not accessible by integration (403)")
      = (.integrationUnauthorized, false) := by decide
example : handleGotError (mk403 "Upgrade to GitHub Pro")
    = (.passthrough "Upgrade to GitHub Pro", false) := by decide
example : handleGotError { code := some "ETIMEDOUT" }
    = (.externalHostError, false) := by decide
example : handleGotError { status := 500 } = (.externalHostError, false) := by
  decide
example : handleGotError { status := 418, message := "Sorry, this is a teapot" }
    = (.passthrough "Sorry, this is a teapot", false) := by decide

example :
    queryRepoField shrinkServer "testItem" {} recentCache50 nowT 10
      = ⟨some (.ok [1, 2, 3]),
          [⟨50, none⟩, ⟨50, some "cursor1"⟩, ⟨25, some "cursor1"⟩,
            ⟨25, some "cursor2"⟩],
          [("testItem", ⟨25, nowT⟩)]⟩ := by decide

example :
    queryRepoField plainServer "testItem" {} recentCache50 nowT 10
      = ⟨some (.ok [1, 2, 3]),
          [⟨50, none⟩, ⟨50, some "cursor1"⟩, ⟨50, some "cursor2"⟩],
          recentCache50⟩ := by decide

example :
    queryRepoField plainServer "testItem" {} staleCache42 nowT 10
      = ⟨some (.ok [1, 2, 3]),
          [⟨84, none⟩, ⟨84, some "cursor1"⟩, ⟨84, some "cursor2"⟩],
          [("testItem", ⟨84, nowT⟩)]⟩ := by decide

example :
    queryRepoField plainServer "testItem" {} staleCache50 nowT 10
      = ⟨some (.ok [1, 2, 3]),
          [⟨100, none⟩, ⟨100, some "cursor1"⟩, ⟨100, some "cursor2"⟩],
          []⟩ := by decide

example :
    queryRepoField error502Server "testItem" {} [] nowT 10
      = ⟨some (.ok [1, 2, 3]),
          [⟨100, none⟩, ⟨50, none⟩, ⟨50, some "cursor1"⟩,
            ⟨50, some "cursor2"⟩],
          [("testItem", ⟨50, nowT⟩)]⟩ := by decide

example :
    queryRepoField err500Server "testItem" { count := some 9 } [] nowT 10
      = ⟨some (.fail .externalHostError), [⟨9, none⟩], []⟩ := by decide

example :
    queryRepoField missingFieldServer "testItem" {} [] nowT 10
      = ⟨some (.ok []),
          [⟨100, none⟩, ⟨50, none⟩, ⟨25, none⟩, ⟨12, none⟩, ⟨6, none⟩,
            ⟨3, none⟩, ⟨1, none⟩],
          []⟩ := by decide

example :
    queryRepoField plainServer "testItem" { limit := some 2 } [] nowT 10
      = ⟨some (.ok [1, 2]), [⟨100, none⟩, ⟨100, some "cursor1"⟩], []⟩ := by
  decide

example :
    fetchAll [] "github" none "u" false "B" none
        (chainPages ⟨"A", "/p?page=2"⟩
          [.list [1, 2], .list [3, 4], .list [5]])
        ⟨"A", "/p"⟩
      = (some (.list [1, 2, 3, 4, 5]),
          [⟨⟨"A", "/p"⟩, none⟩, ⟨⟨"A", "/p?page=2"⟩, none⟩,
            ⟨⟨"A", "/p?page=2"⟩, none⟩]) := by decide

example :
    (fetchAll [] "github" none "u" false "B" (some "the_field")
        (chainPages ⟨"A", "/p?page=2"⟩
          [.obj "the_field" [1] 4, .obj "the_field" [2, 3] 4,
            .obj "the_field" [4] 4])
        ⟨"A", "/p"⟩).1
      = some (.obj "the_field" [1, 2, 3, 4] 4) := by decide

example :
    (fetchLoop true "http://B" none
        (chainWith [.list [1], .list [2]] [⟨"https://A", "/p?page=2"⟩])
        ⟨"http://B", "/p"⟩).2
      = [⟨⟨"http://B", "/p"⟩, none⟩, ⟨⟨"http://B", "/p?page=2"⟩, none⟩] := by
  decide

example :
    resolveHostRule
        [⟨"github", some "test", some "https://api.github.com"⟩,
          ⟨"github", some "abc", some "https://api.github.com/repos/some/repo"⟩]
        "github" none "https://api.github.com/repos/some/repo/some-url"
      = some ⟨"github", some "abc", some "https://api.github.com/repos/some/repo"⟩ := by
  decide

example :
    resolveToken
        [⟨"github", some "abc", none⟩, ⟨"github-releases", some "def", none⟩]
        "github" (some "github-releases") "https://api.github.com/some-url"
      = some "def" := by decide

/-! ## Helper lemmas -/

theorem fetchLoop_chainPages_fst (rebase : Bool) (base : String)
    (auth : Option String) (l : LinkUrl) :
    ∀ (bodies : List PageBody) (url : LinkUrl), bodies ≠ [] →
      (fetchLoop rebase base auth (chainPages l bodies) url).1 = bodies := by
  intro bodies
  induction bodies with
  | nil => intro url h; exact absurd rfl h
  | cons b rest ih =>
    intro url _
    cases rest with
    | nil => simp [chainPages, fetchLoop]
    | cons b2 rest2 =>
      simp only [chainPages, fetchLoop]
      simp [ih (rebaseUrl rebase base l) (by simp)]

theorem collectArrays_map (xss : List (List Nat)) :
    collectArrays (xss.map PageBody.list) = some xss.flatten := by
  induction xss with
  | nil => simp [collectArrays]
  | cons xs rest ih => simp [collectArrays, ih]

theorem collectField_map (f : String) (ps : List (List Nat × Nat)) :
    collectField f (ps.map fun p => PageBody.obj f p.1 p.2)
      = some (ps.map Prod.fst).flatten := by
  induction ps with
  | nil => simp [collectField]
  | cons p rest ih => simp [collectField, ih]

theorem fetchLoop_chainWith_urls (rebase : Bool) (base : String)
    (auth : Option String) :
    ∀ (links : List LinkUrl) (bodies : List PageBody) (url : LinkUrl),
      links.length < bodies.length →
      (fetchLoop rebase base auth (chainWith bodies links) url).2.map
          RestRequest.url
        = url :: links.map (rebaseUrl rebase base) := by
  intro links
  induction links with
  | nil =>
    intro bodies url h
    cases bodies with
    | nil => simp at h
    | cons b rest => simp [chainWith, fetchLoop]
  | cons lnk ls ih =>
    intro bodies url h
    cases bodies with
    | nil => simp at h
    | cons b rest =>
      simp only [chainWith, fetchLoop]
      simp [ih rest _ (by simpa using h)]

theorem fetchLoop_auth_const (rebase : Bool) (base : String)
    (auth : Option String) :
    ∀ (pages : List RestPageResp) (url : LinkUrl) (req : RestRequest),
      req ∈ (fetchLoop rebase base auth pages url).2 → req.auth = auth := by
  intro pages
  induction pages with
  | nil => intro url req h; simp [fetchLoop] at h
  | cons p rest ih =>
    intro url req h
    cases hn : p.next with
    | none =>
      simp [fetchLoop, hn] at h
      simp [h]
    | some l =>
      simp only [fetchLoop, hn] at h
      rcases List.mem_cons.mp h with h1 | h2
      · simp [h1]
      · exact ih _ req h2

theorem bestRule_sound (url : String) :
    ∀ (rules : List HostRule) (b : HostRule), bestRule url rules = some b →
      b ∈ rules ∧ ruleApplies b url = true := by
  intro rules
  induction rules with
  | nil => intro b h; simp [bestRule] at h
  | cons r rest ih =>
    intro b h
    rw [bestRule] at h
    cases hrec : bestRule url rest with
    | none =>
      rw [hrec] at h
      by_cases ha : ruleApplies r url
      · simp [ha] at h
        subst h
        exact ⟨List.mem_cons_self r rest, by simpa using ha⟩
      · simp [ha] at h
    | some b0 =>
      rw [hrec] at h
      obtain ⟨hmem, happ⟩ := ih b0 hrec
      by_cases ha : ruleApplies r url
      · by_cases hle : matchLen b0 ≤ matchLen r
        · simp [ha, hle] at h
          subst h
          exact ⟨List.mem_cons_self r rest, by simpa using ha⟩
        · simp [ha, hle] at h
          subst h
          exact ⟨List.mem_cons_of_mem r hmem, happ⟩
      · simp [ha] at h
        subst h
        exact ⟨List.mem_cons_of_mem r hmem, happ⟩

theorem bestRule_max (url : String) :
    ∀ (rules : List HostRule) (r : HostRule), r ∈ rules →
      ruleApplies r url = true →
      ∃ b, bestRule url rules = some b ∧ matchLen r ≤ matchLen b := by
  intro rules
  induction rules with
  | nil => intro r h; simp at h
  | cons r0 rest ih =>
    intro r hmem happ
    rcases List.mem_cons.mp hmem with heq | htail
    · subst heq
      cases hrec : bestRule url rest with
      | none => exact ⟨r, by rw [bestRule, hrec]; simp [happ], le_refl _⟩
      | some b0 =>
        by_cases hle : matchLen b0 ≤ matchLen r
        · exact ⟨r, by rw [bestRule, hrec]; simp [happ, hle], le_refl _⟩
        · refine ⟨b0, by rw [bestRule, hrec]; simp [happ, hle], ?_⟩
          exact le_of_lt (lt_of_not_le hle)
    · obtain ⟨b, hrec, hle⟩ := ih r htail happ
      by_cases ha : ruleApplies r0 url
      · by_cases hle0 : matchLen b ≤ matchLen r0
        · exact ⟨r0, by rw [bestRule, hrec]; simp [ha, hle0],
            le_trans hle hle0⟩
        · exact ⟨b, by rw [bestRule, hrec]; simp [ha, hle0], hle⟩
      · exact ⟨b, by rw [bestRule, hrec]; simp [ha], hle⟩

theorem go_missing_field (server : Nat → GraphqlResponse) (fieldName : String)
    (now : Nat) (hs : ∀ i, server i = .ok none) :
    ∀ (fuel count : Nat), count + 1 ≤ fuel →
      ∀ (limit : Nat) (cursor : Option String) (acc : List Nat)
        (reqs : List GqlRequest) (cache : GraphqlPageCache) (idx : Nat),
        (queryRepoFieldGo server fieldName true now fuel count limit cursor
            acc reqs cache idx).result
          = some (.ok acc) := by
  intro fuel
  induction fuel with
  | zero => intro count h; omega
  | succ f ih =>
    intro count _ limit cursor acc reqs cache idx
    rw [queryRepoFieldGo]
    by_cases hz : count / 2 = 0
    · simp [hs idx, hz]
    · simp [hs idx, hz]
      exact ih (count / 2) (by omega) limit cursor acc _ cache (idx + 1)

/-! ## Claim theorems -/

/-- C1: for every HTTP response with status 422, the error classifier
returns `repositoryChanged` when the error list of the body contains a code
indicating an outdated base ref/SHA mismatch (e.g. an entry with
`code: "invalid"`); when instead a known benign validation message is
present (reviewer is the PR author, a pull request already exists,
milestone not found) it passes the original message through unchanged; any
other 422 body yields `externalHostError`.  In particular the
milestone-not-found body, whose error list also carries `code: "invalid"`,
is passed through and not classified as `repositoryChanged`. -/
theorem handleGotError_422_taxonomy (message : String)
    (errors : List ErrEntry) :
    (errors.any isBaseRefMismatch = true →
        handleGotError (mk422 message errors) = (.repositoryChanged, false))
    ∧ (errors.any isBaseRefMismatch = false →
        isBenign422 message errors = true →
        handleGotError (mk422 message errors) = (.passthrough message, false))
    ∧ (errors.any isBaseRefMismatch = false →
        isBenign422 message errors = false →
        handleGotError (mk422 message errors) = (.externalHostError, false))
    ∧ handleGotError (mk422 "foobar" [{ code := some "invalid" }])
        = (.repositoryChanged, false)
    ∧ handleGotError milestoneNotFoundBody
        = (.passthrough "Validation Failed", false) := by
  refine ⟨?_, ?_, ?_, by decide, by decide⟩
  · intro h1
    simp [handleGotError, mk422, classify422, h1]
  · intro h1 h2
    simp [handleGotError, mk422, classify422, h1, h2]
  · intro h1 h2
    simp [handleGotError, mk422, classify422, h1, h2]

theorem handleGotError_422_taxonomy_witness :
    handleGotError (mk422 "foobar" [{ code := some "invalid" }])
      = (.repositoryChanged, false) :=
  (handleGotError_422_taxonomy "foobar" [{ code := some "invalid" }]).1
    (by decide)

/-- C2: for every HTTP response with status 401 whose message contains the
bad-credentials phrase, the classifier returns `badCredentials` when no
rate-limit response header is present, and `externalHostError` when the
`x-ratelimit-limit` header is present — in which case (and only then) the
one-time warning flag is set for the logging collaborator; a 401 without
the bad-credentials phrase is passed through with its original message. -/
theorem handleGotError_401_badCredentials (message : String) :
    (strContains message "Bad credentials" = true →
        handleGotError (mk401 message false) = (.badCredentials, false))
    ∧ (strContains message "Bad credentials" = true →
        handleGotError (mk401 message true) = (.externalHostError, true))
    ∧ (strContains message "Bad credentials" = false →
        ∀ rateLimitHeader,
          handleGotError (mk401 message rateLimitHeader)
            = (.passthrough message, false))
    ∧ handleGotError (mk401 "Bad credentials. (401)" false)
        = (.badCredentials, false)
    ∧ handleGotError (mk401 "Bad credentials. (401)" true)
        = (.externalHostError, true) := by
  refine ⟨?_, ?_, ?_, by decide, by decide⟩
  · intro h
    simp [handleGotError, mk401, h]
  · intro h
    simp [handleGotError, mk401, h]
  · intro h rateLimitHeader
    simp [handleGotError, mk401, h]

theorem handleGotError_401_badCredentials_witness :
    handleGotError (mk401 "Bad credentials. (401)" false)
      = (.badCredentials, false) :=
  (handleGotError_401_badCredentials "Bad credentials. (401)").1 (by decide)

/-- C9: for every HTTP response with status 403, the classifier returns
`rateLimitExceeded` when the message matches a rate-limit phrase (primary
`rate limit exceeded`, `secondary rate limit`, or abuse-detection wording),
returns `integrationUnauthorized` only when the specific
`Resource not accessible by integration` wording is present, and otherwise
passes the original message through verbatim — plan-upgrade prompts such as
`Upgrade to GitHub Pro` are surfaced unchanged. -/
theorem handleGotError_403_taxonomy (message : String) :
    ((strContains message "rate limit exceeded" = true
        ∨ strContains message "secondary rate limit" = true
        ∨ strContains message "abuse detection mechanism" = true) →
      handleGotError (mk403 message) = (.rateLimitExceeded, false))
    ∧ (strContains message "rate limit exceeded" = false →
        strContains message "secondary rate limit" = false →
        strContains message "abuse detection mechanism" = false →
        strContains message "Resource not accessible by integration" = true →
        handleGotError (mk403 message) = (.integrationUnauthorized, false))
    ∧ (handleGotError (mk403 message) = (.integrationUnauthorized, false) →
        strContains message "Resource not accessible by integration" = true)
    ∧ (strContains message "rate limit exceeded" = false →
        strContains message "secondary rate limit" = false →
        strContains message "abuse detection mechanism" = false →
        strContains message "Resource not accessible by integration" = false →
        handleGotError (mk403 message) = (.passthrough message, false))
    ∧ handleGotError (mk403 "Upgrade to GitHub Pro")
        = (.passthrough "Upgrade to GitHub Pro", false)
    ∧ handleGotError (mk403 "Resource not accessible by integration (403)")
        = (.integrationUnauthorized, false)
    ∧ handleGotError
          (mk403
            "Error updating branch: API rate limit exceeded for installation ID 48411. (403)")
        = (.rateLimitExceeded, false) := by
  refine ⟨?_, ?_, ?_, ?_, by decide, by decide, by decide⟩
  · intro h
    rcases h with h | h | h <;> simp [handleGotError, mk403, classify403, h]
  · intro h1 h2 h3 h4
    simp [handleGotError, mk403, classify403, h1, h2, h3, h4]
  · intro h
    by_contra hc
    simp only [Bool.not_eq_true] at hc
    simp [handleGotError, mk403, classify403, hc] at h
    split at h <;> simp_all
  · intro h1 h2 h3 h4
    simp [handleGotError, mk403, classify403, h1, h2, h3, h4]

theorem handleGotError_403_taxonomy_witness :
    handleGotError (mk403 "You have triggered an abuse detection mechanism")
      = (.rateLimitExceeded, false) :=
  (handleGotError_403_taxonomy
      "You have triggered an abuse detection mechanism").1
    (Or.inr (Or.inr (by decide)))

/-- C3: on a server-overload failure (HTTP 500/502/503) the page loop
halves the current page size by integer floor division, retries the same
cursor position exactly once at the halved size (one request appended, the
cursor argument unchanged), and persists the halved size with the current
timestamp into the cache entry for the field.  Concretely, with a cached
page size of 50 a 500 on the second page yields exactly one retry of the
same cursor at page size 25 and a final cache entry of page size 25, and
the overall item sequence equals the one of the failure-free run. -/
theorem queryRepoField_shrink_on_overload (server : Nat → GraphqlResponse)
    (fieldName : String) (paginate : Bool) (now fuel count limit : Nat)
    (cursor : Option String) (acc : List Nat) (reqs : List GqlRequest)
    (cache : GraphqlPageCache) (idx status : Nat)
    (hresp : server idx = .err status)
    (hover : isServerOverload status = true)
    (hfloor : minGraphqlPageSize ≤ count / 2) :
    (queryRepoFieldGo server fieldName paginate now (fuel + 1) count limit
        cursor acc reqs cache idx
      = queryRepoFieldGo server fieldName paginate now fuel (count / 2) limit
          cursor acc (reqs ++ [⟨count, cursor⟩])
          (setGraphqlPageSize cache fieldName (count / 2) now) (idx + 1))
    ∧ queryRepoField shrinkServer "testItem" {} recentCache50 nowT 10
        = ⟨some (.ok [1, 2, 3]),
            [⟨50, none⟩, ⟨50, some "cursor1"⟩, ⟨25, some "cursor1"⟩,
              ⟨25, some "cursor2"⟩],
            [("testItem", ⟨25, nowT⟩)]⟩
    ∧ queryRepoField plainServer "testItem" {} recentCache50 nowT 10
        = ⟨some (.ok [1, 2, 3]),
            [⟨50, none⟩, ⟨50, some "cursor1"⟩, ⟨50, some "cursor2"⟩],
            recentCache50⟩ := by
  refine ⟨?_, by decide, by decide⟩
  rw [queryRepoFieldGo]
  simp [hresp, hover, Nat.not_lt.mpr hfloor]

theorem queryRepoField_shrink_on_overload_witness :
    queryRepoFieldGo shrinkServer "testItem" true nowT 5 50 999
        (some "cursor1") [1] [⟨50, none⟩] recentCache50 1
      = queryRepoFieldGo shrinkServer "testItem" true nowT 4 25 999
          (some "cursor1") [1] [⟨50, none⟩, ⟨50, some "cursor1"⟩]
          (setGraphqlPageSize recentCache50 "testItem" 25 nowT) 2 :=
  (queryRepoField_shrink_on_overload shrinkServer "testItem" true nowT 4 50
      999 (some "cursor1") [1] [⟨50, none⟩] recentCache50 1 500 (by decide)
      (by decide) (by decide)).1

/-- C4: a cached entry whose `pageLastResizedAt` is older than the 24-hour
cooldown is doubled before use (and the entry updated with the new
timestamp); when the doubling reaches or exceeds the ceiling of 100 the
entry is deleted entirely instead of being stored capped, so later calls
fall back to the default page size.  Concretely a stale entry of page size
42 makes the next `queryRepoField` call issue its requests at page size 84
with the entry updated, while a stale entry of page size 50 is removed and
the call uses the default of 100. -/
theorem graphqlPageCache_grow_and_evict (cache : GraphqlPageCache)
    (fieldName : String) (entry : GraphqlPageCacheEntry)
    (defaultPageSize now : Nat)
    (hget : cacheGet cache fieldName = some entry)
    (hstale : entry.pageLastResizedAt + pageSizeCooldown < now) :
    (entry.pageSize * 2 < maxGraphqlPageSize →
        getGraphqlPageSize cache fieldName defaultPageSize now
          = (entry.pageSize * 2,
              cacheSet cache fieldName ⟨entry.pageSize * 2, now⟩))
    ∧ (maxGraphqlPageSize ≤ entry.pageSize * 2 →
        getGraphqlPageSize cache fieldName defaultPageSize now
          = (defaultPageSize, cacheErase cache fieldName))
    ∧ queryRepoField plainServer "testItem" {} staleCache42 nowT 10
        = ⟨some (.ok [1, 2, 3]),
            [⟨84, none⟩, ⟨84, some "cursor1"⟩, ⟨84, some "cursor2"⟩],
            [("testItem", ⟨84, nowT⟩)]⟩
    ∧ queryRepoField plainServer "testItem" {} staleCache50 nowT 10
        = ⟨some (.ok [1, 2, 3]),
            [⟨100, none⟩, ⟨100, some "cursor1"⟩, ⟨100, some "cursor2"⟩],
            []⟩
    ∧ getGraphqlPageSize [] "testItem" maxGraphqlPageSize nowT
        = (maxGraphqlPageSize, []) := by
  refine ⟨?_, ?_, by decide, by decide, by decide⟩
  · intro h
    have hmin : min (entry.pageSize * 2) maxGraphqlPageSize
        = entry.pageSize * 2 := Nat.min_eq_left (le_of_lt h)
    simp [getGraphqlPageSize, hget, hstale, hmin, h]
  · intro h
    have hmin : min (entry.pageSize * 2) maxGraphqlPageSize
        = maxGraphqlPageSize := Nat.min_eq_right h
    simp [getGraphqlPageSize, hget, hstale, hmin]

theorem graphqlPageCache_grow_and_evict_witness :
    getGraphqlPageSize staleCache42 "testItem" 100 nowT
      = (84, cacheSet staleCache42 "testItem" ⟨84, nowT⟩) :=
  (graphqlPageCache_grow_and_evict staleCache42 "testItem" ⟨42, 10000⟩ 100
      nowT (by decide) (by decide)).1 (by decide)

/-- C5: when halving the current page size would fall below the floor of
10, a server-overload failure is not retried: the loop stops with the
classified `externalHostError` after the single failing request.
Concretely a call with initial count 9 against a 500-answering server
raises `externalHostError` having issued exactly one request. -/
theorem queryRepoField_floor_abort (server : Nat → GraphqlResponse)
    (fieldName : String) (paginate : Bool) (now fuel count limit : Nat)
    (cursor : Option String) (acc : List Nat) (reqs : List GqlRequest)
    (cache : GraphqlPageCache) (idx status : Nat)
    (hresp : server idx = .err status)
    (hover : isServerOverload status = true)
    (hfloor : count / 2 < minGraphqlPageSize) :
    (queryRepoFieldGo server fieldName paginate now (fuel + 1) count limit
        cursor acc reqs cache idx
      = ⟨some (.fail (classifyGqlStatus status)),
          reqs ++ [⟨count, cursor⟩], cache⟩)
    ∧ classifyGqlStatus 500 = .externalHostError
    ∧ queryRepoField err500Server "testItem" { count := some 9 } [] nowT 10
        = ⟨some (.fail .externalHostError), [⟨9, none⟩], []⟩ := by
  refine ⟨?_, by decide, by decide⟩
  rw [queryRepoFieldGo]
  simp [hresp, hover, hfloor]

theorem queryRepoField_floor_abort_witness :
    queryRepoFieldGo err500Server "testItem" true nowT 10 9 1000 none [] []
        [] 0
      = ⟨some (.fail (classifyGqlStatus 500)), [⟨9, none⟩], []⟩ :=
  (queryRepoField_floor_abort err500Server "testItem" true nowT 9 9 1000
      none [] [] [] 0 500 (by decide) (by decide) (by decide)).1

/-- C10 (implicit): `queryRepoField` terminates even when pagination is
enabled (the default) and the data of every 200 response lacks the requested
nested field: the page loop halves the count each round and resolves to the
empty array within `initial count + 1` iterations — it never hangs or
raises.  Concretely, a server that always answers with data missing the
field yields the empty result both with pagination (after finitely many
halving retries) and without. -/
theorem queryRepoField_missing_field_terminates
    (server : Nat → GraphqlResponse) (fieldName : String) (opts : GqlOptions)
    (cache : GraphqlPageCache) (now fuel : Nat)
    (hs : ∀ i, server i = .ok none)
    (hpag : opts.paginate = true)
    (hfuel : (getGraphqlPageSize cache fieldName
        (opts.count.getD maxGraphqlPageSize) now).1 + 1 ≤ fuel) :
    ((queryRepoField server fieldName opts cache now fuel).result
        = some (.ok []))
    ∧ queryRepoField missingFieldServer "testItem" {} [] nowT 10
        = ⟨some (.ok []),
            [⟨100, none⟩, ⟨50, none⟩, ⟨25, none⟩, ⟨12, none⟩, ⟨6, none⟩,
              ⟨3, none⟩, ⟨1, none⟩],
            []⟩
    ∧ (queryRepoField missingFieldServer "testItem" { paginate := false }
          [] nowT 2).result = some (.ok []) := by
  refine ⟨?_, by decide, by decide⟩
  rw [queryRepoField, hpag]
  exact go_missing_field server fieldName now hs fuel _ hfuel _ _ _ _ _ _

theorem queryRepoField_missing_field_terminates_witness :
    (queryRepoField missingFieldServer "testItem" {} [] nowT 101).result
      = some (.ok []) :=
  (queryRepoField_missing_field_terminates missingFieldServer "testItem" {}
      [] nowT 101 (fun _ => rfl) rfl (by decide)).1

/-- C6: for every sequence of REST pages linked by `rel="next"` relations,
`fetchAll` returns the concatenation of the page contents in page order
and terminates when no next relation is present: with no `paginationField`
the top-level array bodies are concatenated; with one set, the returned
value is the envelope of the first page with that field replaced by the
concatenation of its array across all pages; and the page loop
stops at the first page carrying no next relation, regardless of whatever
the server would have replied afterwards. -/
theorem fetchAll_concatenates_pages (rules : List HostRule)
    (platformType : String) (dsType : Option String) (urlString : String)
    (rebase : Bool) (base : String) (l : LinkUrl) (url : LinkUrl) :
    (∀ xss : List (List Nat), xss ≠ [] →
        (fetchAll rules platformType dsType urlString rebase base none
            (chainPages l (xss.map PageBody.list)) url).1
          = some (.list xss.flatten))
    ∧ (∀ (f : String) (p0 : List (List Nat × Nat) → List (List Nat × Nat))
        (x0 : List Nat × Nat) (ps : List (List Nat × Nat)),
        p0 = id →
        (fetchAll rules platformType dsType urlString rebase base (some f)
            (chainPages l ((x0 :: ps).map fun p => PageBody.obj f p.1 p.2))
            url).1
          = some (.obj f (x0.1 ++ (ps.map Prod.fst).flatten) x0.2))
    ∧ (∀ (b : PageBody) (junk : List RestPageResp) (auth : Option String),
        fetchLoop rebase base auth (⟨b, none⟩ :: junk) url
          = ([b], [⟨url, auth⟩])) := by
  refine ⟨?_, ?_, ?_⟩
  · intro xss hne
    have hloop := fetchLoop_chainPages_fst rebase base
      (resolveToken rules platformType dsType urlString) l
      (xss.map PageBody.list) url (by simpa using hne)
    simp only [fetchAll]
    rw [hloop]
    cases xss with
    | nil => exact absurd rfl hne
    | cons xs rest =>
      have hc := collectArrays_map (xs :: rest)
      simp only [List.map_cons] at hc
      simp [aggregatePages, hc]
  · intro f p0 x0 ps _
    have hloop := fetchLoop_chainPages_fst rebase base
      (resolveToken rules platformType dsType urlString) l
      ((x0 :: ps).map fun p => PageBody.obj f p.1 p.2) url (by simp)
    simp only [fetchAll]
    rw [hloop]
    simp [aggregatePages, collectField_map]
  · intro b junk auth
    simp [fetchLoop]

theorem fetchAll_concatenates_pages_witness :
    (fetchAll [] "github" none "u" false "B" none
        (chainPages ⟨"A", "/p?page=2"⟩
          [.list [1, 2], .list [3, 4], .list [5]])
        ⟨"A", "/p"⟩).1
      = some (.list [1, 2, 3, 4, 5]) := by
  have h := (fetchAll_concatenates_pages [] "github" none "u" false "B"
      ⟨"A", "/p?page=2"⟩ ⟨"A", "/p"⟩).1 [[1, 2], [3, 4], [5]] (by decide)
  simpa using h

/-- C7: when the environment-level rebasing toggle is off, the pagination
engine follows the `Link` URLs verbatim; when it is on and the server
reports next links under host A while the configured base URL is host B,
every subsequent page request is issued against the scheme+host of B with
path and query of the linked URL unchanged.  Concretely the GHE link
under `https://ghe.mycompany.com` is refetched from
`http://ghe.alternative.domain.com` with the same path and query. -/
theorem pagination_link_rebasing (base : String) (auth : Option String) :
    (∀ (links : List LinkUrl) (bodies : List PageBody) (url : LinkUrl),
        links.length < bodies.length →
        (fetchLoop false base auth (chainWith bodies links) url).2.map
            RestRequest.url
          = url :: links)
    ∧ (∀ (links : List LinkUrl) (bodies : List PageBody) (url : LinkUrl),
        links.length < bodies.length →
        (fetchLoop true base auth (chainWith bodies links) url).2.map
            RestRequest.url
          = url :: links.map fun lnk => ⟨base, lnk.pathq⟩)
    ∧ (fetchLoop true "http://ghe.alternative.domain.com" none
          (chainWith [.list [1], .list [2]]
            [⟨"https://ghe.mycompany.com", "/api/v3/some-url?per_page=2&page=2"⟩])
          ⟨"http://ghe.alternative.domain.com", "/api/v3/some-url?per_page=2"⟩).2.map
          RestRequest.url
        = [⟨"http://ghe.alternative.domain.com", "/api/v3/some-url?per_page=2"⟩,
            ⟨"http://ghe.alternative.domain.com", "/api/v3/some-url?per_page=2&page=2"⟩] := by
  refine ⟨?_, ?_, by decide⟩
  · intro links bodies url h
    have h2 := fetchLoop_chainWith_urls false base auth links bodies url h
    have hfun : rebaseUrl false base = fun lnk => lnk :=
      funext fun lnk => by simp [rebaseUrl]
    rw [hfun] at h2
    simpa using h2
  · intro links bodies url h
    have h2 := fetchLoop_chainWith_urls true base auth links bodies url h
    have hfun : rebaseUrl true base = fun lnk => (⟨base, lnk.pathq⟩ : LinkUrl) :=
      funext fun lnk => by simp [rebaseUrl]
    rw [hfun] at h2
    exact h2

theorem pagination_link_rebasing_witness :
    (fetchLoop false "B" none
        (chainWith [.list [1], .list [2]] [⟨"A", "/p?page=2"⟩])
        ⟨"A", "/p"⟩).2.map RestRequest.url
      = [⟨"A", "/p"⟩, ⟨"A", "/p?page=2"⟩] :=
  (pagination_link_rebasing "B" none).1 [⟨"A", "/p?page=2"⟩]
    [.list [1], .list [2]] ⟨"A", "/p"⟩ (by decide)

/-- C8: credential resolution returns a rule whose `matchHost` is a
longest prefix of the target URL among the applicable rules, so a
repository-scoped rule outranks a host-only rule for the same host type;
a rule whose host type equals the datasource identifier of the caller outranks
a rule of the generic platform host type; and every request of a paginated
fetch, including follow-up pages, carries the credential resolved for the
original request. -/
theorem hostRule_resolution_precedence :
    (∀ (rules : List HostRule) (url : String) (r : HostRule), r ∈ rules →
        ruleApplies r url = true →
        ∃ b, bestRule url rules = some b ∧ ruleApplies b url = true
          ∧ matchLen r ≤ matchLen b ∧ b ∈ rules)
    ∧ (∀ (rules : List HostRule) (platformType ds url : String)
        (r : HostRule), r ∈ rules → r.hostType = ds →
        ruleApplies r url = true →
        ∃ b, resolveHostRule rules platformType (some ds) url = some b
          ∧ b.hostType = ds)
    ∧ (∀ (rules : List HostRule) (platformType : String)
        (dsType : Option String) (urlString : String) (rebase : Bool)
        (base : String) (paginationField : Option String)
        (pages : List RestPageResp) (url : LinkUrl) (req : RestRequest),
        req ∈ (fetchAll rules platformType dsType urlString rebase base
            paginationField pages url).2 →
        req.auth = resolveToken rules platformType dsType urlString)
    ∧ resolveHostRule
          [⟨"github", some "test", some "https://api.github.com"⟩,
            ⟨"github", some "abc",
              some "https://api.github.com/repos/some/repo"⟩]
          "github" none "https://api.github.com/repos/some/repo/some-url"
        = some ⟨"github", some "abc",
            some "https://api.github.com/repos/some/repo"⟩
    ∧ resolveToken
          [⟨"github", some "abc", none⟩,
            ⟨"github-releases", some "def", none⟩]
          "github" (some "github-releases") "https://api.github.com/some-url"
        = some "def" := by
  refine ⟨?_, ?_, ?_, by decide, by decide⟩
  · intro rules url r hmem happ
    obtain ⟨b, hbest, hle⟩ := bestRule_max url rules r hmem happ
    obtain ⟨hbmem, hbapp⟩ := bestRule_sound url rules b hbest
    exact ⟨b, hbest, hbapp, hle, hbmem⟩
  · intro rules platformType ds url r hmem hht happ
    have hmemf : r ∈ rules.filter fun r0 => r0.hostType == ds := by
      simp [List.mem_filter, hmem, hht]
    obtain ⟨b, hbest, _⟩ :=
      bestRule_max url (rules.filter fun r0 => r0.hostType == ds) r hmemf happ
    obtain ⟨hbmem, _⟩ :=
      bestRule_sound url (rules.filter fun r0 => r0.hostType == ds) b hbest
    have hbt : b.hostType = ds := by
      have := (List.mem_filter.mp hbmem).2
      simpa using this
    refine ⟨b, ?_, hbt⟩
    simp [resolveHostRule, hbest]
  · intro rules platformType dsType urlString rebase base paginationField
      pages url req hmem
    exact fetchLoop_auth_const rebase base _ pages url req (by
      simpa [fetchAll] using hmem)

theorem hostRule_resolution_precedence_witness :
    ∃ b,
      bestRule "https://api.github.com/repos/some/repo/some-url"
          [⟨"github", some "test", some "https://api.github.com"⟩,
            ⟨"github", some "abc",
              some "https://api.github.com/repos/some/repo"⟩]
        = some b
      ∧ ruleApplies b "https://api.github.com/repos/some/repo/some-url" = true
      ∧ matchLen ⟨"github", some "abc",
            some "https://api.github.com/repos/some/repo"⟩ ≤ matchLen b
      ∧ b ∈ [⟨"github", some "test", some "https://api.github.com"⟩,
          ⟨"github", some "abc",
            some "https://api.github.com/repos/some/repo"⟩] :=
  hostRule_resolution_precedence.1
    [⟨"github", some "test", some "https://api.github.com"⟩,
      ⟨"github", some "abc", some "https://api.github.com/repos/some/repo"⟩]
    "https://api.github.com/repos/some/repo/some-url"
    ⟨"github", some "abc", some "https://api.github.com/repos/some/repo"⟩
    (by decide) (by decide)
